import Mathlib

/-
Shallow embedding of the NotePro offline-first note synchronization core.

Sources embedded:
  * shared/schema.ts            -- Note / Tag / NoteTag / NoteWithTags records
  * client/src/lib/offlineStorage.ts
                                -- the client Local Store operations
  * server storage.ts (MemStorage)
                                -- the in-memory server repository
  * server routes.ts            -- htmlToMarkdown and the export route
  * client hooks (useNotes / useCreateNote / useUpdateNote / ...)
                                -- the sync-orchestrator fallback flows

Modelling conventions:
  * Timestamps (JS Date) are Nat values passed explicitly to every operation
    that calls new Date().
  * Math.floor(Math.random() * 10000000) is modelled by an explicit Nat
    parameter k (the value of the floor), so 0 <= k <= 9999999.
  * localStorage persistence is modelled by a LocalStore record passed and
    returned explicitly; the JSON round trip is assumed faithful.
  * Remote calls are modelled by an explicit Except RemoteErr value standing
    for the outcome of the single fetch/apiRequest the code performs; the
    client code catches every thrown error in one catch block, so the flows
    below only ever inspect success vs failure, exactly like the source.
  * drizzle-zod optional insert fields with database defaults are modelled as
    explicitly supplied values (every embedded scenario supplies them).
-/

namespace NotePro

/-- A note record, from shared/schema.ts (table notes). -/
structure Note where
  id : Int
  title : String
  content : String
  isFavorite : Bool
  isDeleted : Bool
  createdAt : Nat
  updatedAt : Nat
deriving DecidableEq, Repr

/-- A tag record, from shared/schema.ts (table tags). -/
structure Tag where
  id : Int
  name : String
  color : String
deriving DecidableEq, Repr

/-- A client-side note-tag relation row (offlineStorage.ts interface NoteTag). -/
structure NoteTagRel where
  noteId : Int
  tagId : Int
deriving DecidableEq, Repr

/-- A server-side note-tag relation row (table note_tags, with its own id). -/
structure ServerNoteTag where
  id : Int
  noteId : Int
  tagId : Int
deriving DecidableEq, Repr

/-- A note together with its resolved tags (shared/schema.ts NoteWithTags). -/
structure NoteWithTags where
  note : Note
  tags : List Tag
deriving DecidableEq, Repr

/-- InsertNote (schema insert shape, defaults modelled as supplied). -/
structure InsertNote where
  title : String
  content : String
  isFavorite : Bool
  isDeleted : Bool
deriving DecidableEq, Repr

/-- InsertTag (schema insert shape). -/
structure InsertTag where
  name : String
  color : String
deriving DecidableEq, Repr

/-- Partial InsertNote: the patch shape used by updateNote and the hooks. -/
structure NotePatch where
  title : Option String
  content : Option String
  isFavorite : Option Bool
  isDeleted : Option Bool
deriving DecidableEq, Repr

/-- Partial InsertTag. -/
structure TagPatch where
  name : Option String
  color : Option String
deriving DecidableEq, Repr

/-- JS object spread of a patch over a note: fields present in the patch win. -/
def applyNotePatch (n : Note) (p : NotePatch) : Note :=
  { id := n.id
    title := p.title.getD n.title
    content := p.content.getD n.content
    isFavorite := p.isFavorite.getD n.isFavorite
    isDeleted := p.isDeleted.getD n.isDeleted
    createdAt := n.createdAt
    updatedAt := n.updatedAt }

/-- JS object spread of a tag patch over a tag. -/
def applyTagPatch (t : Tag) (p : TagPatch) : Tag :=
  { id := t.id, name := p.name.getD t.name, color := p.color.getD t.color }

/-- JS (s || d) on an optional string: undefined and the empty string are falsy. -/
def jsOrStr (o : Option String) (d : String) : String :=
  match o with
  | none => d
  | some s => if s = "" then d else s

/-- Replace the first element with the same key in place, else append at the
end.  This is both the findIndex-assign-else-push idiom of saveOfflineNote /
saveOfflineTag and JS Map.set keyed by the id field. -/
def upsertBy {α : Type} (key : α → Int) (a : α) : List α → List α
  | [] => [a]
  | x :: xs => if key x == key a then a :: xs else x :: upsertBy key a xs

/-! ## Client Local Store (client/src/lib/offlineStorage.ts) -/

/-- The client local cache: the three localStorage collections. -/
structure LocalStore where
  notes : List Note
  tags : List Tag
  noteTags : List NoteTagRel
deriving DecidableEq, Repr

/-- The tag-resolution expression shared by getOfflineNoteWithTags and
getOfflineNotesWithTags: relation rows for the note give tag ids, then tags
are filtered by membership of their id in that list. -/
def tagsForNoteClient (s : LocalStore) (noteId : Int) : List Tag :=
  let noteTagIds := (s.noteTags.filter fun nt => nt.noteId == noteId).map (·.tagId)
  s.tags.filter fun tag => noteTagIds.contains tag.id

/-- getOfflineNoteWithTags from offlineStorage.ts. -/
def getOfflineNoteWithTags (s : LocalStore) (noteId : Int) : Option NoteWithTags :=
  match s.notes.find? (fun n => n.id == noteId) with
  | none => none
  | some n => some ⟨n, tagsForNoteClient s noteId⟩

/-- getOfflineNotesWithTags from offlineStorage.ts. -/
def getOfflineNotesWithTags (s : LocalStore) : List NoteWithTags :=
  s.notes.map fun n => ⟨n, tagsForNoteClient s n.id⟩

/-- saveOfflineNote: upsert keyed by id (replace first match else push). -/
def saveOfflineNote (note : Note) (s : LocalStore) : LocalStore :=
  { s with notes := upsertBy Note.id note s.notes }

/-- deleteOfflineNote: remove the note and its relation rows. -/
def deleteOfflineNote (noteId : Int) (s : LocalStore) : LocalStore :=
  { s with
    notes := s.notes.filter fun n => !(n.id == noteId)
    noteTags := s.noteTags.filter fun nt => !(nt.noteId == noteId) }

/-- saveOfflineTag: upsert keyed by id. -/
def saveOfflineTag (tag : Tag) (s : LocalStore) : LocalStore :=
  { s with tags := upsertBy Tag.id tag s.tags }

/-- deleteOfflineTag: remove the tag and its relation rows. -/
def deleteOfflineTag (tagId : Int) (s : LocalStore) : LocalStore :=
  { s with
    tags := s.tags.filter fun t => !(t.id == tagId)
    noteTags := s.noteTags.filter fun nt => !(nt.tagId == tagId) }

/-- addOfflineTagToNote: push the relation unless it already exists.  Note:
the function itself performs no existence check on the note or the tag. -/
def addOfflineTagToNote (noteId tagId : Int) (s : LocalStore) : LocalStore :=
  if s.noteTags.any (fun nt => nt.noteId == noteId && nt.tagId == tagId) then s
  else { s with noteTags := s.noteTags ++ [⟨noteId, tagId⟩] }

/-- removeOfflineTagFromNote: drop every matching relation row. -/
def removeOfflineTagFromNote (noteId tagId : Int) (s : LocalStore) : LocalStore :=
  { s with noteTags := s.noteTags.filter fun nt => !(nt.noteId == noteId && nt.tagId == tagId) }

/-- JS String.prototype.toLowerCase, adequate for the ASCII data in play. -/
def jsToLower (s : String) : String := String.mk (s.toList.map Char.toLower)

/-- JS String.prototype.includes on character lists. -/
def listIncludes (needle : List Char) : List Char → Bool
  | [] => needle.isEmpty
  | c :: cs => needle.isPrefixOf (c :: cs) || listIncludes needle cs

/-- JS hay.includes(needle) on strings. -/
def strIncludes (hay needle : String) : Bool := listIncludes needle.toList hay.toList

/-- The note-matching predicate of searchOfflineNotes (and of the inlined
offline search in useSearchNotes): case-insensitive substring over title,
content and tag names. -/
def searchMatch (query : String) (nw : NoteWithTags) : Bool :=
  strIncludes (jsToLower nw.note.title) (jsToLower query) ||
  strIncludes (jsToLower nw.note.content) (jsToLower query) ||
  nw.tags.any (fun tag => strIncludes (jsToLower tag.name) (jsToLower query))

/-- searchOfflineNotes from offlineStorage.ts: filter all notes-with-tags by
the substring predicate.  There is no isDeleted filter and no trimming. -/
def searchOfflineNotes (query : String) (s : LocalStore) : List NoteWithTags :=
  (getOfflineNotesWithTags s).filter (searchMatch query)

/-! ## Server repository (storage.ts, class MemStorage) -/

/-- The in-memory server repository.  The JS Maps keyed by id are modelled as
insertion-ordered lists whose key is the id field of the stored value (every
Map.set in the source uses key = value.id). -/
structure MemStorage where
  notes : List Note
  tags : List Tag
  noteTags : List ServerNoteTag
  noteCurrentId : Int
  tagCurrentId : Int
  noteTagCurrentId : Int
deriving DecidableEq, Repr

namespace MemStorage

/-- Map.get on the notes map. -/
def getNote (s : MemStorage) (id : Int) : Option Note :=
  s.notes.find? (fun n => n.id == id)

/-- Map.get on the tags map. -/
def getTag (s : MemStorage) (id : Int) : Option Tag :=
  s.tags.find? (fun t => t.id == id)

/-- MemStorage.createNote: take the current id, increment the counter, stamp
both timestamps with now. -/
def createNote (ins : InsertNote) (now : Nat) (s : MemStorage) : Note × MemStorage :=
  let id := s.noteCurrentId
  let note : Note :=
    { id := id, title := ins.title, content := ins.content
      isFavorite := ins.isFavorite, isDeleted := ins.isDeleted
      createdAt := now, updatedAt := now }
  (note, { s with notes := upsertBy Note.id note s.notes, noteCurrentId := id + 1 })

/-- MemStorage.updateNote: spread the patch over the stored note, refresh
updatedAt, store back under the same key. -/
def updateNote (id : Int) (p : NotePatch) (now : Nat) (s : MemStorage) :
    Option Note × MemStorage :=
  match s.getNote id with
  | none => (none, s)
  | some n =>
    let updated := { applyNotePatch n p with updatedAt := now }
    (some updated, { s with notes := upsertBy Note.id updated s.notes })

/-- MemStorage.deleteNote: soft delete (isDeleted := true, refresh updatedAt);
returns whether the note existed. -/
def deleteNote (id : Int) (now : Nat) (s : MemStorage) : Bool × MemStorage :=
  match s.getNote id with
  | none => (false, s)
  | some n =>
    let updated := { n with isDeleted := true, updatedAt := now }
    (true, { s with notes := upsertBy Note.id updated s.notes })

/-- MemStorage.restoreNote: isDeleted := false, refresh updatedAt. -/
def restoreNote (id : Int) (now : Nat) (s : MemStorage) : Option Note × MemStorage :=
  match s.getNote id with
  | none => (none, s)
  | some n =>
    let updated := { n with isDeleted := false, updatedAt := now }
    (some updated, { s with notes := upsertBy Note.id updated s.notes })

/-- MemStorage.toggleFavorite. -/
def toggleFavorite (id : Int) (now : Nat) (s : MemStorage) : Option Note × MemStorage :=
  match s.getNote id with
  | none => (none, s)
  | some n =>
    let updated := { n with isFavorite := !n.isFavorite, updatedAt := now }
    (some updated, { s with notes := upsertBy Note.id updated s.notes })

/-- MemStorage.createTag. -/
def createTag (ins : InsertTag) (s : MemStorage) : Tag × MemStorage :=
  let id := s.tagCurrentId
  let tag : Tag := { id := id, name := ins.name, color := ins.color }
  (tag, { s with tags := upsertBy Tag.id tag s.tags, tagCurrentId := id + 1 })

/-- MemStorage.updateTag. -/
def updateTag (id : Int) (p : TagPatch) (s : MemStorage) : Option Tag × MemStorage :=
  match s.getTag id with
  | none => (none, s)
  | some t =>
    let updated := applyTagPatch t p
    (some updated, { s with tags := upsertBy Tag.id updated s.tags })

/-- MemStorage.deleteTag: first remove every relation row for the tag, then
delete the tag itself; returns whether the tag existed. -/
def deleteTag (id : Int) (s : MemStorage) : Bool × MemStorage :=
  let existed := s.tags.any (fun t => t.id == id)
  (existed,
   { s with
     noteTags := s.noteTags.filter fun nt => !(nt.tagId == id)
     tags := s.tags.filter fun t => !(t.id == id) })

/-- MemStorage.addTagToNote: no-op when the (noteId, tagId) pair exists, else
insert a fresh relation row with the next relation id. -/
def addTagToNote (noteId tagId : Int) (s : MemStorage) : MemStorage :=
  if s.noteTags.any (fun nt => nt.noteId == noteId && nt.tagId == tagId) then s
  else
    let id := s.noteTagCurrentId
    { s with
      noteTags := upsertBy ServerNoteTag.id ⟨id, noteId, tagId⟩ s.noteTags
      noteTagCurrentId := id + 1 }

/-- MemStorage.removeTagFromNote: delete the first matching relation row (by
its own map key), if any. -/
def removeTagFromNote (noteId tagId : Int) (s : MemStorage) : MemStorage :=
  match s.noteTags.find? (fun nt => nt.noteId == noteId && nt.tagId == tagId) with
  | none => s
  | some row => { s with noteTags := s.noteTags.filter fun nt => !(nt.id == row.id) }

/-- MemStorage.getTagsForNote: relation rows give tag ids, tags filtered by
membership. -/
def getTagsForNote (s : MemStorage) (noteId : Int) : List Tag :=
  let tagIds := (s.noteTags.filter fun nt => nt.noteId == noteId).map (·.tagId)
  s.tags.filter fun tag => tagIds.contains tag.id

/-- MemStorage.getNoteWithTags. -/
def getNoteWithTags (s : MemStorage) (noteId : Int) : Option NoteWithTags :=
  match s.getNote noteId with
  | none => none
  | some n => some ⟨n, s.getTagsForNote noteId⟩

end MemStorage

/-- The MemStorage constructor: empty maps, all counters at 1, then the five
default tags created through createTag. -/
def initStorage : MemStorage :=
  let s0 : MemStorage :=
    { notes := [], tags := [], noteTags := []
      noteCurrentId := 1, tagCurrentId := 1, noteTagCurrentId := 1 }
  let s1 := (MemStorage.createTag ⟨"Work", "#3B82F6"⟩ s0).2
  let s2 := (MemStorage.createTag ⟨"Personal", "#10B981"⟩ s1).2
  let s3 := (MemStorage.createTag ⟨"Ideas", "#8B5CF6"⟩ s2).2
  let s4 := (MemStorage.createTag ⟨"Meeting", "#8B5CF6"⟩ s3).2
  (MemStorage.createTag ⟨"Planning", "#3B82F6"⟩ s4).2

/-- One server-side mutating request, for reasoning about arbitrary request
histories against MemStorage. -/
inductive ServerOp where
  | create (ins : InsertNote) (now : Nat)
  | update (id : Int) (p : NotePatch) (now : Nat)
  | sdelete (id : Int) (now : Nat)
  | restore (id : Int) (now : Nat)
  | toggleFav (id : Int) (now : Nat)
  | createTag (ins : InsertTag)
  | updateTag (id : Int) (p : TagPatch)
  | deleteTag (id : Int)
  | addTagToNote (noteId tagId : Int)
  | removeTagFromNote (noteId tagId : Int)
deriving DecidableEq, Repr

/-- State transition of one server operation. -/
def stepOp (op : ServerOp) (s : MemStorage) : MemStorage :=
  match op with
  | .create ins now => (MemStorage.createNote ins now s).2
  | .update id p now => (MemStorage.updateNote id p now s).2
  | .sdelete id now => (MemStorage.deleteNote id now s).2
  | .restore id now => (MemStorage.restoreNote id now s).2
  | .toggleFav id now => (MemStorage.toggleFavorite id now s).2
  | .createTag ins => (MemStorage.createTag ins s).2
  | .updateTag id p => (MemStorage.updateTag id p s).2
  | .deleteTag id => (MemStorage.deleteTag id s).2
  | .addTagToNote a b => MemStorage.addTagToNote a b s
  | .removeTagFromNote a b => MemStorage.removeTagFromNote a b s

/-- Run a request history left to right. -/
def runOps (ops : List ServerOp) (s : MemStorage) : MemStorage :=
  ops.foldl (fun st op => stepOp op st) s

/-! ## Regex-replace machinery for the HTML-to-Markdown conversions

The source performs the conversions with JS String.replace over fixed
regular expressions.  Each pattern in play is of a simple shape (literal
opening tag, optional attribute tail up to the next closing angle bracket,
a non-greedy capture, literal closing tag), so each one is embedded as an
explicit matcher on character lists; a fuelled scanner reproduces the
left-to-right global-replace semantics (fuel := input length suffices since
every match consumes at least one character). -/

/-- Try to consume a literal; return the rest on success. -/
def tryLit (lit s : List Char) : Option (List Char) :=
  if lit.isPrefixOf s then some (s.drop lit.length) else none

/-- Consume the attribute tail of a tag and the closing angle bracket:
the regex piece matching any run of non-gt characters then the bracket. -/
def skipToGt : List Char → Option (List Char)
  | [] => none
  | c :: cs => if c == '>' then some cs else skipToGt cs

/-- Non-greedy capture up to a literal close tag, where the dot of the regex
does not match a newline: shortest newline-free prefix followed by the close
literal.  Returns (capture, rest after the close literal). -/
def findCapture (closeLit : List Char) : List Char → Option (List Char × List Char)
  | [] => none
  | c :: cs =>
    if closeLit.isPrefixOf (c :: cs) then some ([], (c :: cs).drop closeLit.length)
    else if c == '\n' then none
    else
      match findCapture closeLit cs with
      | none => none
      | some (cap, rest) => some (c :: cap, rest)

/-- Non-greedy capture up to a literal close tag where the capture may span
newlines (the whitespace-or-nonwhitespace character class in the source). -/
def findCaptureD (closeLit : List Char) : List Char → Option (List Char × List Char)
  | [] => none
  | c :: cs =>
    if closeLit.isPrefixOf (c :: cs) then some ([], (c :: cs).drop closeLit.length)
    else
      match findCaptureD closeLit cs with
      | none => none
      | some (cap, rest) => some (c :: cap, rest)

/-- Greedy capture of non-quote characters terminated by a double quote,
consuming the quote. -/
def captureNoQuote : List Char → Option (List Char × List Char)
  | [] => none
  | c :: cs =>
    if c == '"' then some ([], cs)
    else
      match captureNoQuote cs with
      | none => none
      | some (cap, rest) => some (c :: cap, rest)

/-- One global-replace pass: at every position try the matcher; on a match
emit its replacement and continue after the match, else copy one character.
Fuelled; fuel = input length is enough because matches are nonempty. -/
def gsub (tm : List Char → Option (List Char × List Char)) : Nat → List Char → List Char
  | 0, s => s
  | _ + 1, [] => []
  | fuel + 1, c :: cs =>
    match tm (c :: cs) with
    | some (rep, rest) => rep ++ gsub tm fuel rest
    | none => c :: gsub tm fuel cs

/-- Global replace with fuel set to the input length. -/
def gsubS (tm : List Char → Option (List Char × List Char)) (s : List Char) : List Char :=
  gsub tm s.length s

/-- First match anywhere in the string: returns (text before the match,
replacement, rest after the match). -/
def scanFirst (tm : List Char → Option (List Char × List Char)) :
    List Char → Option (List Char × List Char × List Char)
  | [] => none
  | c :: cs =>
    match tm (c :: cs) with
    | some (rep, rest) => some ([], rep, rest)
    | none =>
      match scanFirst tm cs with
      | none => none
      | some (pre, rep, rest) => some (c :: pre, rep, rest)

/-- The exec-and-replace-first while loop of the convert helpers: repeatedly
replace the first match until none remains.  Fuelled; every iteration of the
loops in play strictly shrinks the string. -/
def whileReplace (tm : List Char → Option (List Char × List Char)) :
    Nat → List Char → List Char
  | 0, s => s
  | fuel + 1, s =>
    match scanFirst tm s with
    | none => s
    | some (pre, rep, rest) => whileReplace tm fuel (pre ++ rep ++ rest)

/-- Matcher for a tag with an attribute tail and a single-line non-greedy
body: openLit is the tag-name prefix (no closing bracket), closeLit the full
closing tag; mk builds the replacement from the capture. -/
def matchTagAttrs (openLit closeLit : List Char) (mk : List Char → List Char)
    (s : List Char) : Option (List Char × List Char) :=
  match tryLit openLit s with
  | none => none
  | some s1 =>
    match skipToGt s1 with
    | none => none
    | some s2 =>
      match findCapture closeLit s2 with
      | none => none
      | some (cap, rest) => some (mk cap, rest)

/-- Matcher for an exact literal tag pair with a single-line non-greedy
body (no attribute tail allowed). -/
def matchTagExact (openLit closeLit : List Char) (mk : List Char → List Char)
    (s : List Char) : Option (List Char × List Char) :=
  match tryLit openLit s with
  | none => none
  | some s1 =>
    match findCapture closeLit s1 with
    | none => none
    | some (cap, rest) => some (mk cap, rest)

/-- Matcher for a literal string replaced by a fixed literal. -/
def matchLit (lit rep : List Char) (s : List Char) : Option (List Char × List Char) :=
  match tryLit lit s with
  | none => none
  | some rest => some (rep, rest)

/-! ## Server htmlToMarkdown (routes.ts) -/

/-- The opening div-span-p pattern: an angle bracket, optional slash, one of
the three tag names (alternation order div, span, p), attribute tail, closing
bracket; replaced by a newline.  Note the p alternative also fires on any tag
whose name merely starts with p (such as pre), exactly as the regex does. -/
def matchDivSpanP (s : List Char) : Option (List Char × List Char) :=
  match tryLit ['<'] s with
  | none => none
  | some s1 =>
    let s2 := match tryLit ['/'] s1 with
      | some r => r
      | none => s1
    let alt := match tryLit "div".toList s2 with
      | some r => some r
      | none =>
        match tryLit "span".toList s2 with
        | some r => some r
        | none => tryLit ['p'] s2
    match alt with
    | none => none
    | some s3 =>
      match skipToGt s3 with
      | none => none
      | some s4 => some (['\n'], s4)

/-- The anchor pattern of the server conversion: href attribute captured up
to the closing quote, attribute tail, link text captured non-greedily. -/
def matchAnchorServer (s : List Char) : Option (List Char × List Char) :=
  match tryLit "<a href=\"".toList s with
  | none => none
  | some s1 =>
    match captureNoQuote s1 with
    | none => none
    | some (href, s2) =>
      match skipToGt s2 with
      | none => none
      | some s3 =>
        match findCapture "</a>".toList s3 with
        | none => none
        | some (txt, rest) =>
          some ('[' :: txt ++ ']' :: '(' :: href ++ [')'], rest)

/-- The image pattern: src attribute captured up to the closing quote, then
the attribute tail. -/
def matchImg (s : List Char) : Option (List Char × List Char) :=
  match tryLit "<img src=\"".toList s with
  | none => none
  | some s1 =>
    match captureNoQuote s1 with
    | none => none
    | some (src, s2) =>
      match skipToGt s2 with
      | none => none
      | some rest => some ('!' :: '[' :: ']' :: '(' :: src ++ [')'], rest)

/-- The list-item replacement used inside convertUl: item body captured
across newlines, replaced by a dash, the body and a newline. -/
def matchLiUl (s : List Char) : Option (List Char × List Char) :=
  match tryLit "<li".toList s with
  | none => none
  | some s1 =>
    match skipToGt s1 with
    | none => none
    | some s2 =>
      match findCaptureD "</li>".toList s2 with
      | none => none
      | some (cap, rest) => some ('-' :: ' ' :: cap ++ ['\n'], rest)

/-- One convertUl step: an unordered list with its body captured across
newlines; the replacement is the body with every list item rewritten. -/
def matchUl (s : List Char) : Option (List Char × List Char) :=
  match tryLit "<ul".toList s with
  | none => none
  | some s1 =>
    match skipToGt s1 with
    | none => none
    | some s2 =>
      match findCaptureD "</ul>".toList s2 with
      | none => none
      | some (cap, rest) => some (gsubS matchLiUl cap, rest)

/-- The list-item replacement used inside convertOl.  The source builds the
replacement inside a callback, where the dollar-one placeholder is NOT
substituted: every item becomes its index, a dot, a space, the literal
two-character placeholder text and a newline, dropping the item body. -/
def olItemText (index : Nat) : List Char :=
  (toString index).toList ++ '.' :: ' ' :: '$' :: '1' :: ['\n']

/-- Rewrite the items of an ordered-list body, numbering from the given
index (the source counter starts at 1 for each list). -/
def gsubOlItems : Nat → Nat → List Char → List Char
  | 0, _, s => s
  | _ + 1, _, [] => []
  | fuel + 1, index, c :: cs =>
    match matchLiUl (c :: cs) with
    | some (_, rest) => olItemText index ++ gsubOlItems fuel (index + 1) rest
    | none => c :: gsubOlItems fuel index cs

/-- One convertOl step. -/
def matchOl (s : List Char) : Option (List Char × List Char) :=
  match tryLit "<ol".toList s with
  | none => none
  | some s1 =>
    match skipToGt s1 with
    | none => none
    | some s2 =>
      match findCaptureD "</ol>".toList s2 with
      | none => none
      | some (cap, rest) => some (gsubOlItems cap.length 1 cap, rest)

/-- One convertCodeBlocks step: a pre-code pair with a body captured across
newlines, fenced with backtick fences. -/
def matchCodeBlock (s : List Char) : Option (List Char × List Char) :=
  match tryLit "<pre><code".toList s with
  | none => none
  | some s1 =>
    match skipToGt s1 with
    | none => none
    | some s2 =>
      match findCaptureD "</code></pre>".toList s2 with
      | none => none
      | some (cap, rest) =>
        some ("```".toList ++ '\n' :: cap ++ '\n' :: "```".toList, rest)

/-- One convertBlockquotes step. -/
def matchBlockquote (s : List Char) : Option (List Char × List Char) :=
  match tryLit "<blockquote".toList s with
  | none => none
  | some s1 =>
    match skipToGt s1 with
    | none => none
    | some s2 =>
      match findCaptureD "</blockquote>".toList s2 with
      | none => none
      | some (cap, rest) => some ('>' :: ' ' :: cap, rest)

/-- cleanNewlines: three or more consecutive newlines collapse to two. -/
def matchNNN (s : List Char) : Option (List Char × List Char) :=
  match tryLit "\n\n\n".toList s with
  | none => none
  | some rest => some (['\n', '\n'], rest.dropWhile (fun c => c == '\n'))

/-- JS String.prototype.trim whitespace. -/
def isJsWs (c : Char) : Bool :=
  c == ' ' || c == '\n' || c == '\t' || c == '\r' || c == '\x0b' || c == '\x0c'

/-- JS String.prototype.trim. -/
def jsTrim (s : List Char) : List Char :=
  ((s.dropWhile isJsWs).reverse.dropWhile isJsWs).reverse

/-- The server htmlToMarkdown from routes.ts: the chained simple replaces,
then the four while-loop converters, then newline cleanup, entity decoding
and a final trim. -/
def htmlToMarkdown (html : String) : String :=
  let s0 := html.toList
  let s1 := gsubS matchDivSpanP s0
  let s2 := gsubS (matchTagAttrs "<h1".toList "</h1>".toList
    (fun c => '#' :: ' ' :: c ++ ['\n'])) s1
  let s3 := gsubS (matchTagAttrs "<h2".toList "</h2>".toList
    (fun c => '#' :: '#' :: ' ' :: c ++ ['\n'])) s2
  let s4 := gsubS (matchTagAttrs "<h3".toList "</h3>".toList
    (fun c => '#' :: '#' :: '#' :: ' ' :: c ++ ['\n'])) s3
  let s5 := gsubS (matchTagExact "<strong>".toList "</strong>".toList
    (fun c => '*' :: '*' :: c ++ ['*', '*'])) s4
  let s6 := gsubS (matchTagExact "<b>".toList "</b>".toList
    (fun c => '*' :: '*' :: c ++ ['*', '*'])) s5
  let s7 := gsubS (matchTagExact "<em>".toList "</em>".toList
    (fun c => '*' :: c ++ ['*'])) s6
  let s8 := gsubS (matchTagExact "<i>".toList "</i>".toList
    (fun c => '*' :: c ++ ['*'])) s7
  let s9 := gsubS (matchTagExact "<u>".toList "</u>".toList
    (fun c => '_' :: c ++ ['_'])) s8
  let s10 := gsubS (matchTagExact "<s>".toList "</s>".toList
    (fun c => '~' :: '~' :: c ++ ['~', '~'])) s9
  let s11 := gsubS matchAnchorServer s10
  let s12 := gsubS matchImg s11
  let s13 := gsubS (matchTagExact "<code>".toList "</code>".toList
    (fun c => '`' :: c ++ ['`'])) s12
  let s14 := whileReplace matchUl s13.length s13
  let s15 := whileReplace matchOl s14.length s14
  let s16 := whileReplace matchCodeBlock s15.length s15
  let s17 := whileReplace matchBlockquote s16.length s16
  let s18 := gsubS matchNNN s17
  let s19 := gsubS (matchLit "&lt;".toList ['<']) s18
  let s20 := gsubS (matchLit "&gt;".toList ['>']) s19
  let s21 := gsubS (matchLit "&quot;".toList ['"']) s20
  let s22 := gsubS (matchLit "&amp;".toList ['&']) s21
  String.mk (jsTrim s22)

/-- The markdown branch of the export route: look the note up, convert its
content, and prepend the title as a top-level heading separated by a blank
line.  An absent note is the 404 branch, modelled as none. -/
def exportMarkdownRoute (id : Int) (s : MemStorage) : Option String :=
  match s.getNoteWithTags id with
  | none => none
  | some nw => some ("# " ++ nw.note.title ++ "\n\n" ++ htmlToMarkdown nw.note.content)

/-! ## Client offline markdown conversion (useExportNote markdown branch) -/

/-- The anchor pattern of the client conversion: both groups are non-greedy
single-line captures; the href group is terminated by the quote-bracket pair. -/
def matchAnchorClient (s : List Char) : Option (List Char × List Char) :=
  match tryLit "<a href=\"".toList s with
  | none => none
  | some s1 =>
    match findCapture "\">".toList s1 with
    | none => none
    | some (href, s2) =>
      match findCapture "</a>".toList s2 with
      | none => none
      | some (txt, rest) =>
        some ('[' :: txt ++ ']' :: '(' :: href ++ [')'], rest)

/-- The client-side basic HTML to Markdown conversion performed by
useExportNote when offline: a reduced chain of exact-tag replaces, with no
title heading, no newline collapsing, no entity decoding and no trim. -/
def offlineHtmlToMarkdown (html : String) : String :=
  let s0 := html.toList
  let s1 := gsubS (matchTagExact "<h1>".toList "</h1>".toList
    (fun c => '#' :: ' ' :: c ++ ['\n', '\n'])) s0
  let s2 := gsubS (matchTagExact "<h2>".toList "</h2>".toList
    (fun c => '#' :: '#' :: ' ' :: c ++ ['\n', '\n'])) s1
  let s3 := gsubS (matchTagExact "<h3>".toList "</h3>".toList
    (fun c => '#' :: '#' :: '#' :: ' ' :: c ++ ['\n', '\n'])) s2
  let s4 := gsubS (matchTagExact "<p>".toList "</p>".toList
    (fun c => c ++ ['\n', '\n'])) s3
  let s5 := gsubS (matchTagExact "<strong>".toList "</strong>".toList
    (fun c => '*' :: '*' :: c ++ ['*', '*'])) s4
  let s6 := gsubS (matchTagExact "<em>".toList "</em>".toList
    (fun c => '*' :: c ++ ['*'])) s5
  let s7 := gsubS matchAnchorClient s6
  let s8 := gsubS (matchTagExact "<ul>".toList "</ul>".toList
    (fun c => c ++ ['\n'])) s7
  let s9 := gsubS (matchTagExact "<li>".toList "</li>".toList
    (fun c => '-' :: ' ' :: c ++ ['\n'])) s8
  String.mk s9

/-- The markdown branch of the offline export in useExportNote: the note is
looked up in the Local Store (throwing when absent) and the reduced
conversion is applied to the content alone. -/
def exportOfflineMarkdown (id : Int) (s : LocalStore) : Except String String :=
  match getOfflineNoteWithTags s id with
  | none => .error "Note not found in offline storage"
  | some nw => .ok (offlineHtmlToMarkdown nw.note.content)

/-! ## Client sync flows (the react-query mutation and query functions)

Each flow embeds one mutationFn/queryFn as a pure function of
  * offline : whether isOffline() returned true at entry,
  * remote  : the outcome of the single network call the body would make
    (success payload, or a thrown error classified as application-rejected
    or network-unreachable; the source's catch blocks never distinguish the
    two, and neither do the flows),
  * the timestamp and random draw of the execution,
  * the Local Store before the call.
Each returns the value given to the caller (or the thrown error message)
together with the Local Store after the call.  The best-effort cloud mirror
is invoked only after success and all its failures are swallowed without
touching the Local Store, so it does not appear in the state. -/

/-- Why a remote call failed: an application-class rejection (HTTP error
status such as 404 or 400 surfaced as a thrown error) or a network-class
transport failure.  The source's catch blocks receive both identically. -/
inductive RemoteErr where
  | app
  | net
deriving DecidableEq, Repr

/-- The temporary note built by useCreateNote in its offline and
network-fallback branches; k models Math.floor(Math.random() * 10000000),
so the id is the negation of k. -/
def offlineCreateNote (title content : Option String)
    (isFavorite isDeleted : Option Bool) (k : Nat) (now : Nat) : Note :=
  { id := -(k : Int)
    title := jsOrStr title "Untitled"
    content := jsOrStr content ""
    isFavorite := isFavorite.getD false
    isDeleted := isDeleted.getD false
    createdAt := now
    updatedAt := now }

/-- useCreateNote.mutationFn.  Offline: build and save a placeholder note.
Online success: save the server note as returned.  Online failure of any
kind: same placeholder construction as offline. -/
def createNoteFlow (offline : Bool) (remote : Except RemoteErr Note)
    (title content : Option String) (isFavorite isDeleted : Option Bool)
    (k : Nat) (now : Nat) (s : LocalStore) : Except String (Note × LocalStore) :=
  if offline then
    let n := offlineCreateNote title content isFavorite isDeleted k now
    .ok (n, saveOfflineNote n s)
  else
    match remote with
    | .ok created => .ok (created, saveOfflineNote created s)
    | .error _ =>
      let n := offlineCreateNote title content isFavorite isDeleted k now
      .ok (n, saveOfflineNote n s)

/-- useUpdateNote.mutationFn.  Offline: patch the local copy (throwing when
absent).  Online success: save the server note.  Online failure of any kind:
patch the local copy, with a different error message when it is absent. -/
def updateNoteFlow (offline : Bool) (remote : Except RemoteErr Note)
    (id : Int) (p : NotePatch) (now : Nat) (s : LocalStore) :
    Except String (Note × LocalStore) :=
  if offline then
    match getOfflineNoteWithTags s id with
    | none => .error "Note not found in offline storage"
    | some nw =>
      let updated := { applyNotePatch nw.note p with updatedAt := now }
      .ok (updated, saveOfflineNote updated s)
  else
    match remote with
    | .ok srv => .ok (srv, saveOfflineNote srv s)
    | .error _ =>
      match getOfflineNoteWithTags s id with
      | none => .error "Failed to update note and note not found in offline storage"
      | some nw =>
        let updated := { applyNotePatch nw.note p with updatedAt := now }
        .ok (updated, saveOfflineNote updated s)

/-- useRestoreNote.mutationFn.  Online success returns the raw server note
but stores it with isDeleted forced false and a fresh updatedAt. -/
def restoreNoteFlow (offline : Bool) (remote : Except RemoteErr Note)
    (id : Int) (now : Nat) (s : LocalStore) : Except String (Note × LocalStore) :=
  if offline then
    match getOfflineNoteWithTags s id with
    | none => .error "Note not found in offline storage"
    | some nw =>
      let restored := { nw.note with isDeleted := false, updatedAt := now }
      .ok (restored, saveOfflineNote restored s)
  else
    match remote with
    | .ok srv =>
      .ok (srv, saveOfflineNote { srv with isDeleted := false, updatedAt := now } s)
    | .error _ =>
      match getOfflineNoteWithTags s id with
      | none => .error "Failed to restore note and note not found in offline storage"
      | some nw =>
        let restored := { nw.note with isDeleted := false, updatedAt := now }
        .ok (restored, saveOfflineNote restored s)

/-- useToggleFavorite.mutationFn. -/
def toggleFavoriteFlow (offline : Bool) (remote : Except RemoteErr Note)
    (id : Int) (now : Nat) (s : LocalStore) : Except String (Note × LocalStore) :=
  if offline then
    match getOfflineNoteWithTags s id with
    | none => .error "Note not found in offline storage"
    | some nw =>
      let updated := { nw.note with isFavorite := !nw.note.isFavorite, updatedAt := now }
      .ok (updated, saveOfflineNote updated s)
  else
    match remote with
    | .ok srv => .ok (srv, saveOfflineNote srv s)
    | .error _ =>
      match getOfflineNoteWithTags s id with
      | none => .error "Failed to toggle favorite and note not found in offline storage"
      | some nw =>
        let updated := { nw.note with isFavorite := !nw.note.isFavorite, updatedAt := now }
        .ok (updated, saveOfflineNote updated s)

/-- useNotes.queryFn.  Offline: the local list filtered by includeDeleted.
Signed in: try the cloud snapshot first (mirroring a non-null snapshot into
the store and returning it filtered); a failed or null cloud pull falls
through to the API.  API success mirrors every returned note into the store
and returns the list as served (already filtered server-side); any API
failure falls back to the filtered local list.  Remote payloads are
NoteWithTags records; mirroring stores their note part (the stray tags
property of the stored JS object is invisible to every subsequent read). -/
def notesQueryFlow (offline : Bool) (userId : Option String)
    (cloud : Except RemoteErr (Option (List NoteWithTags)))
    (remote : Except RemoteErr (List NoteWithTags))
    (includeDeleted : Bool) (s : LocalStore) : List NoteWithTags × LocalStore :=
  if offline then
    ((getOfflineNotesWithTags s).filter fun nw => includeDeleted || !nw.note.isDeleted, s)
  else
    let viaApi : List NoteWithTags × LocalStore :=
      match remote with
      | .ok notes =>
        (notes, notes.foldl (fun st nw => saveOfflineNote nw.note st) s)
      | .error _ =>
        ((getOfflineNotesWithTags s).filter fun nw => includeDeleted || !nw.note.isDeleted, s)
    match userId with
    | none => viaApi
    | some _ =>
      match cloud with
      | .ok (some cloudNotes) =>
        (cloudNotes.filter fun nw => includeDeleted || !nw.note.isDeleted,
         cloudNotes.foldl (fun st nw => saveOfflineNote nw.note st) s)
      | .ok none => viaApi
      | .error _ => viaApi

/-- useNoteById.queryFn.  A 404 from the API returns null directly (before
the catch); success mirrors the note part into the store and returns the
payload; any other failure falls back to the local copy. -/
def noteByIdFlow (offline : Bool) (remote : Except RemoteErr (Option NoteWithTags))
    (id : Int) (s : LocalStore) : Option NoteWithTags × LocalStore :=
  if offline then
    (getOfflineNoteWithTags s id, s)
  else
    match remote with
    | .ok none => (none, s)
    | .ok (some nw) => (some nw, saveOfflineNote nw.note s)
    | .error _ => (getOfflineNoteWithTags s id, s)

/-- useSearchNotes.mutationFn.  The offline and network-fallback branches
inline the same filter expression over the local notes-with-tags; online
success returns the server result without mirroring it. -/
def searchNotesFlow (offline : Bool) (remote : Except RemoteErr (List NoteWithTags))
    (query : String) (s : LocalStore) : List NoteWithTags × LocalStore :=
  if offline then
    ((getOfflineNotesWithTags s).filter (searchMatch query), s)
  else
    match remote with
    | .ok results => (results, s)
    | .error _ => ((getOfflineNotesWithTags s).filter (searchMatch query), s)

/-- The body served by the DELETE routes (and by the tag-relation offline
branches as a literal): { success: true }. -/
structure SuccessBody where
  success : Bool
deriving DecidableEq, Repr

/-- What useDeleteNote hands back: the offline and network-fallback branches
return the locally marked-deleted note, while the online-success branch
returns the parsed response body (the route serves { success: true }, not a
note). -/
inductive DeleteNoteResult where
  | note (n : Note)
  | body (b : SuccessBody)
deriving DecidableEq, Repr

/-- The object the online-success branch of useDeleteNote hands to
saveOfflineNote: the spread of the parsed { success: true } body with
isDeleted and a fresh updatedAt.  It carries no id, title, content, favorite
or creation fields (they are the JS undefined), so the findIndex inside
saveOfflineNote matches no note row (an undefined id equals no number) and
the object is appended as an extra id-less row — or replaces a previous such
row, undefined being strictly equal to undefined.  The typed notes
collection holds Note records only, so this id-less artifact row lives
outside it and is carried explicitly in the flow's result instead. -/
structure DeleteArtifact where
  success : Bool
  isDeleted : Bool
  updatedAt : Nat
deriving DecidableEq, Repr

/-- useDeleteNote.mutationFn.  Offline: mark the local copy deleted (throwing
when absent).  Online success: return the parsed body and push the id-less
artifact row described at DeleteArtifact (the typed note rows are untouched
since the artifact's undefined id matches none of them).  Online failure of
any kind: mark the local copy deleted, with a different error message when
it is absent. -/
def deleteNoteFlow (offline : Bool) (remote : Except RemoteErr SuccessBody)
    (id : Int) (now : Nat) (s : LocalStore) :
    Except String (DeleteNoteResult × LocalStore × Option DeleteArtifact) :=
  if offline then
    match getOfflineNoteWithTags s id with
    | none => .error "Note not found in offline storage"
    | some nw =>
      let deletedNote := { nw.note with isDeleted := true, updatedAt := now }
      .ok (.note deletedNote, saveOfflineNote deletedNote s, none)
  else
    match remote with
    | .ok b => .ok (.body b, s, some ⟨b.success, true, now⟩)
    | .error _ =>
      match getOfflineNoteWithTags s id with
      | none => .error "Failed to delete note and note not found in offline storage"
      | some nw =>
        let deletedNote := { nw.note with isDeleted := true, updatedAt := now }
        .ok (.note deletedNote, saveOfflineNote deletedNote s, none)

/-- useTags.queryFn.  Offline: the local tag list.  Online success: mirror
every served tag into the store and return the served list.  Any online
failure: the local tag list. -/
def tagsQueryFlow (offline : Bool) (remote : Except RemoteErr (List Tag))
    (s : LocalStore) : List Tag × LocalStore :=
  if offline then
    (s.tags, s)
  else
    match remote with
    | .ok tags => (tags, tags.foldl (fun st t => saveOfflineTag t st) s)
    | .error _ => (s.tags, s)

/-- The temporary tag built by useCreateTag in its offline and
network-fallback branches; k models Math.floor(Math.random() * 10000000).
The JS or-defaults map an empty name to Untitled Tag and a missing or empty
color to the default purple. -/
def offlineCreateTag (name : String) (color : Option String) (k : Nat) : Tag :=
  { id := -(k : Int)
    name := jsOrStr (some name) "Untitled Tag"
    color := jsOrStr color "#6e56cf" }

/-- useCreateTag.mutationFn. -/
def createTagFlow (offline : Bool) (remote : Except RemoteErr Tag)
    (name : String) (color : Option String) (k : Nat) (s : LocalStore) :
    Except String (Tag × LocalStore) :=
  if offline then
    let t := offlineCreateTag name color k
    .ok (t, saveOfflineTag t s)
  else
    match remote with
    | .ok created => .ok (created, saveOfflineTag created s)
    | .error _ =>
      let t := offlineCreateTag name color k
      .ok (t, saveOfflineTag t s)

/-- useUpdateTag.mutationFn.  Offline: spread the patch over the local tag
(throwing when absent).  Online success: save the served tag.  Online
failure of any kind: spread the patch over the local tag, with a different
error message when it is absent. -/
def updateTagFlow (offline : Bool) (remote : Except RemoteErr Tag)
    (id : Int) (p : TagPatch) (s : LocalStore) : Except String (Tag × LocalStore) :=
  if offline then
    match s.tags.find? (fun t => t.id == id) with
    | none => .error "Tag not found in offline storage"
    | some existingTag =>
      let updatedTag := applyTagPatch existingTag p
      .ok (updatedTag, saveOfflineTag updatedTag s)
  else
    match remote with
    | .ok srv => .ok (srv, saveOfflineTag srv s)
    | .error _ =>
      match s.tags.find? (fun t => t.id == id) with
      | none => .error "Failed to update tag and tag not found in offline storage"
      | some existingTag =>
        let updatedTag := applyTagPatch existingTag p
        .ok (updatedTag, saveOfflineTag updatedTag s)

/-- useDeleteTag.mutationFn.  Every non-throwing branch removes the tag (and,
through deleteOfflineTag, its relation rows) from the store; the offline and
fallback branches return the literal { success: true }, the success branch
returns the parsed body. -/
def deleteTagFlow (offline : Bool) (remote : Except RemoteErr SuccessBody)
    (id : Int) (s : LocalStore) : Except String (SuccessBody × LocalStore) :=
  if offline then
    match s.tags.find? (fun t => t.id == id) with
    | none => .error "Tag not found in offline storage"
    | some _ => .ok (⟨true⟩, deleteOfflineTag id s)
  else
    match remote with
    | .ok result => .ok (result, deleteOfflineTag id s)
    | .error _ =>
      match s.tags.find? (fun t => t.id == id) with
      | none => .error "Failed to delete tag and tag not found in offline storage"
      | some _ => .ok (⟨true⟩, deleteOfflineTag id s)

/-- What the tag-relation hooks hand back: the offline and network-fallback
branches return the literal { success: true }, while the online-success
branch returns the tag list served by the relation route. -/
inductive TagRelationResult where
  | flag (b : SuccessBody)
  | served (tags : List Tag)
deriving DecidableEq, Repr

/-- useAddTagToNote.mutationFn.  The offline branch and the catch branch are
the same code, including the error messages: check the note, check the tag,
add the relation, return { success: true }.  The success branch adds the
relation and returns the served tag list. -/
def addTagToNoteFlow (offline : Bool) (remote : Except RemoteErr (List Tag))
    (noteId tagId : Int) (s : LocalStore) :
    Except String (TagRelationResult × LocalStore) :=
  if offline then
    match getOfflineNoteWithTags s noteId with
    | none => .error "Note not found in offline storage"
    | some _ =>
      match s.tags.find? (fun t => t.id == tagId) with
      | none => .error "Tag not found in offline storage"
      | some _ => .ok (.flag ⟨true⟩, addOfflineTagToNote noteId tagId s)
  else
    match remote with
    | .ok served => .ok (.served served, addOfflineTagToNote noteId tagId s)
    | .error _ =>
      match getOfflineNoteWithTags s noteId with
      | none => .error "Note not found in offline storage"
      | some _ =>
        match s.tags.find? (fun t => t.id == tagId) with
        | none => .error "Tag not found in offline storage"
        | some _ => .ok (.flag ⟨true⟩, addOfflineTagToNote noteId tagId s)

/-- useRemoveTagFromNote.mutationFn.  Same shape as useAddTagToNote, with
the removal instead of the addition. -/
def removeTagFromNoteFlow (offline : Bool) (remote : Except RemoteErr (List Tag))
    (noteId tagId : Int) (s : LocalStore) :
    Except String (TagRelationResult × LocalStore) :=
  if offline then
    match getOfflineNoteWithTags s noteId with
    | none => .error "Note not found in offline storage"
    | some _ =>
      match s.tags.find? (fun t => t.id == tagId) with
      | none => .error "Tag not found in offline storage"
      | some _ => .ok (.flag ⟨true⟩, removeOfflineTagFromNote noteId tagId s)
  else
    match remote with
    | .ok served => .ok (.served served, removeOfflineTagFromNote noteId tagId s)
    | .error _ =>
      match getOfflineNoteWithTags s noteId with
      | none => .error "Note not found in offline storage"
      | some _ =>
        match s.tags.find? (fun t => t.id == tagId) with
        | none => .error "Tag not found in offline storage"
        | some _ => .ok (.flag ⟨true⟩, removeOfflineTagFromNote noteId tagId s)

/-! ## Local Store referential consistency -/

/-- Every relation row points at a present note id and a present tag id. -/
def Consistent (s : LocalStore) : Prop :=
  ∀ nt ∈ s.noteTags,
    (∃ n ∈ s.notes, n.id = nt.noteId) ∧ (∃ t ∈ s.tags, t.id = nt.tagId)

instance (s : LocalStore) : Decidable (Consistent s) := by
  unfold Consistent; infer_instance

instance {ε α : Type} [DecidableEq ε] [DecidableEq α] : DecidableEq (Except ε α) :=
  fun x y =>
    match x, y with
    | .ok a, .ok b =>
      if h : a = b then isTrue (by rw [h])
      else isFalse (fun he => h (by injection he))
    | .error e, .error f =>
      if h : e = f then isTrue (by rw [h])
      else isFalse (fun he => h (by injection he))
    | .ok _, .error _ => isFalse (fun he => Except.noConfusion he)
    | .error _, .ok _ => isFalse (fun he => Except.noConfusion he)

/-! ## Concrete fixtures used by witnesses and counterexamples -/

/-- An empty Local Store. -/
def emptyLocal : LocalStore := { notes := [], tags := [], noteTags := [] }

/-- A live note with id 1. -/
def noteA : Note :=
  { id := 1, title := "A", content := "hello", isFavorite := false
    isDeleted := false, createdAt := 0, updatedAt := 0 }

/-- A Local Store holding just noteA. -/
def storeA : LocalStore := { notes := [noteA], tags := [], noteTags := [] }

/-- A patch renaming the title to B. -/
def patchB : NotePatch :=
  { title := some "B", content := none, isFavorite := none, isDeleted := none }

/-- A tag patch renaming the tag to N. -/
def tagPatchN : TagPatch := { name := some "N", color := none }

/-- A trashed note (isDeleted true) whose text holds no whitespace. -/
def c4DeletedNote : Note :=
  { id := 2, title := "A", content := "B", isFavorite := false
    isDeleted := true, createdAt := 0, updatedAt := 0 }

/-- A live note whose text holds no whitespace. -/
def c4LiveNote : Note :=
  { id := 3, title := "C", content := "D", isFavorite := false
    isDeleted := false, createdAt := 0, updatedAt := 0 }

/-- A Local Store with one trashed and one live note, no tags. -/
def c4Store : LocalStore := { notes := [c4DeletedNote, c4LiveNote], tags := [], noteTags := [] }

/-- The insert payload of the Trip scenario. -/
def tripInsert : InsertNote :=
  { title := "Trip", content := "<p>Pack bags</p>", isFavorite := false, isDeleted := false }

/-- The server repository after creating the Trip note online (it gets id 1). -/
def tripStorage : MemStorage := (MemStorage.createNote tripInsert 0 initStorage).2

/-- The server-assigned Trip note. -/
def tripNote : Note := (MemStorage.createNote tripInsert 0 initStorage).1

/-- The Local Store after the Trip note was mirrored into it. -/
def tripLocal : LocalStore := saveOfflineNote tripNote emptyLocal

/-- The server note returned by the successful retried create of claim C2. -/
def c2ServerNote : Note :=
  { id := 1, title := "Trip", content := "x", isFavorite := false
    isDeleted := false, createdAt := 1, updatedAt := 1 }

/-- The placeholder note created offline in the C2 run (random draw 5). -/
def c2Placeholder : Note :=
  { id := -5, title := "Trip", content := "x", isFavorite := false
    isDeleted := false, createdAt := 0, updatedAt := 0 }

/-- The Local Store after the offline create of the C2 run. -/
def c2Store1 : LocalStore := { notes := [c2Placeholder], tags := [], noteTags := [] }

/-- The Local Store after the successful retried create of the C2 run. -/
def c2Store2 : LocalStore :=
  { notes := [c2Placeholder, c2ServerNote], tags := [], noteTags := [] }

/-- A tag with id 10. -/
def tagW : Tag := { id := 10, name := "Work", color := "#3B82F6" }

/-- A consistent Local Store with one note and one tag. -/
def c8Store : LocalStore := { notes := [noteA], tags := [tagW], noteTags := [] }

/-- The pre-delete note of the C7 witness. -/
def c7Pre : Note :=
  { id := 1, title := "T", content := "c", isFavorite := true
    isDeleted := false, createdAt := 0, updatedAt := 0 }

/-- A server repository holding c7Pre. -/
def c7Store : MemStorage :=
  { notes := [c7Pre], tags := [], noteTags := []
    noteCurrentId := 2, tagCurrentId := 1, noteTagCurrentId := 1 }

/-! ## Helper lemmas -/

/-- The empty needle is included in every string (JS includes with the empty
string is always true). -/
theorem listIncludes_nil (hay : List Char) : listIncludes [] hay = true := by
  cases hay <;> simp [listIncludes, List.isPrefixOf]

/-- An id present in a list survives an id-keyed upsert. -/
theorem exists_key_upsertBy {α : Type} (key : α → Int) (a : α) (k : Int) :
    ∀ l : List α, (∃ x ∈ l, key x = k) → ∃ x ∈ upsertBy key a l, key x = k := by
  intro l
  induction l with
  | nil => intro h; simp at h
  | cons x xs ih =>
    intro h
    obtain ⟨y, hy, hk⟩ := h
    by_cases hx : key x = key a
    · rcases List.mem_cons.mp hy with h1 | h2
      · subst h1
        exact ⟨a, by simp [upsertBy, hx], by omega⟩
      · exact ⟨y, by simp [upsertBy, hx]; right; exact h2, hk⟩
    · rcases List.mem_cons.mp hy with h1 | h2
      · subst h1
        exact ⟨y, by simp [upsertBy, hx], hk⟩
      · obtain ⟨z, hz, hzk⟩ := ih ⟨y, h2, hk⟩
        exact ⟨z, by simp [upsertBy, hx]; right; exact hz, hzk⟩

/-- Looking a key up after an id-keyed upsert of a record with the same id as
the previously found record yields the new record. -/
theorem find?_upsertBy_self (l : List Note) (k : Int) (pre n : Note)
    (hf : l.find? (fun x => x.id == k) = some pre) (hid : n.id = pre.id) :
    (upsertBy Note.id n l).find? (fun x => x.id == k) = some n := by
  induction l with
  | nil => simp [List.find?] at hf
  | cons x xs ih =>
    by_cases hx : x.id = k
    · have hxpre : x = pre := by
        have : (x.id == k) = true := by simp [hx]
        simpa [List.find?, this] using hf
      have hxn : x.id = n.id := by rw [hid, ← hxpre]
      have hnk : n.id = k := by omega
      simp [upsertBy, hxn, List.find?, hnk]
    · have hx' : (x.id == k) = false := by simp [hx]
      have hf' : xs.find? (fun x => x.id == k) = some pre := by
        simpa [List.find?, hx'] using hf
      have hprek : pre.id = k := by
        have := List.find?_some hf'
        simpa using this
      have hxn : ¬ (x.id = n.id) := by omega
      simp [upsertBy, hxn, List.find?, hx']
      exact ih hf'

/-- Every server operation leaves the note id counter unchanged or larger. -/
theorem noteCurrentId_stepOp (op : ServerOp) (s : MemStorage) :
    s.noteCurrentId ≤ (stepOp op s).noteCurrentId := by
  cases op with
  | create ins now => simp [stepOp, MemStorage.createNote]
  | update id p now =>
    simp only [stepOp, MemStorage.updateNote]
    cases h : s.getNote id <;> simp [h]
  | sdelete id now =>
    simp only [stepOp, MemStorage.deleteNote]
    cases h : s.getNote id <;> simp [h]
  | restore id now =>
    simp only [stepOp, MemStorage.restoreNote]
    cases h : s.getNote id <;> simp [h]
  | toggleFav id now =>
    simp only [stepOp, MemStorage.toggleFavorite]
    cases h : s.getNote id <;> simp [h]
  | createTag ins => simp [stepOp, MemStorage.createTag]
  | updateTag id p =>
    simp only [stepOp, MemStorage.updateTag]
    cases h : s.getTag id <;> simp [h]
  | deleteTag id => simp [stepOp, MemStorage.deleteTag]
  | addTagToNote a b =>
    simp only [stepOp, MemStorage.addTagToNote]
    split <;> simp
  | removeTagFromNote a b =>
    simp only [stepOp, MemStorage.removeTagFromNote]
    cases h : s.noteTags.find? (fun nt => nt.noteId == a && nt.tagId == b) <;> simp [h]

/-- A request history never decreases the note id counter. -/
theorem noteCurrentId_runOps (ops : List ServerOp) (s : MemStorage) :
    s.noteCurrentId ≤ (runOps ops s).noteCurrentId := by
  induction ops generalizing s with
  | nil => simp [runOps]
  | cons op rest ih =>
    calc s.noteCurrentId ≤ (stepOp op s).noteCurrentId := noteCurrentId_stepOp op s
      _ ≤ (runOps rest (stepOp op s)).noteCurrentId := ih (stepOp op s)
      _ = (runOps (op :: rest) s).noteCurrentId := rfl

/-! ## Claim theorems -/

/-- Claim C5 (confirmed): creating the note with title Trip and content
consisting of Pack bags wrapped in a paragraph tag, then exporting it as
markdown through the server route, yields exactly the body consisting of the
title as a top-level heading, a blank line, and the converted content. -/
theorem spec_c5_export_markdown_scenario :
    exportMarkdownRoute 1 tripStorage = some "# Trip\n\nPack bags" := by decide

/-- Claim C6 counterexample: for the Trip note the online export body and the
offline export body differ, so offline export does not produce the same
rendered output as online export. -/
theorem spec_c6_counterexample :
    ∃ onlineBody offlineBody : String,
      exportMarkdownRoute 1 tripStorage = some onlineBody
      ∧ exportOfflineMarkdown 1 tripLocal = .ok offlineBody
      ∧ onlineBody ≠ offlineBody :=
  ⟨"# Trip\n\nPack bags", "Pack bags\n\n", by decide, by decide, by decide⟩

/-- Claim C6 amended: the offline markdown export applies the reduced
client-side conversion to the content alone and never injects the title
heading, so it differs from the online export; for any title and the
paragraph content Pack bags, online yields the heading plus converted
content, offline yields the bare converted paragraph, and the two are never
equal. -/
theorem spec_c6_amended_export_divergence (title : String) :
    exportMarkdownRoute 1
      { notes := [{ id := 1, title := title, content := "<p>Pack bags</p>"
                    isFavorite := false, isDeleted := false, createdAt := 0, updatedAt := 0 }]
        tags := [], noteTags := []
        noteCurrentId := 2, tagCurrentId := 1, noteTagCurrentId := 1 }
      = some ("# " ++ title ++ "\n\n" ++ "Pack bags")
    ∧ exportOfflineMarkdown 1
      { notes := [{ id := 1, title := title, content := "<p>Pack bags</p>"
                    isFavorite := false, isDeleted := false, createdAt := 0, updatedAt := 0 }]
        tags := [], noteTags := [] }
      = .ok "Pack bags\n\n"
    ∧ ("# " ++ title ++ "\n\n" ++ "Pack bags") ≠ "Pack bags\n\n" := by
  have hmd : htmlToMarkdown "<p>Pack bags</p>" = "Pack bags" := by decide
  have hoff : offlineHtmlToMarkdown "<p>Pack bags</p>" = "Pack bags\n\n" := by decide
  refine ⟨?_, ?_, ?_⟩
  · simp [exportMarkdownRoute, MemStorage.getNoteWithTags, MemStorage.getNote,
      MemStorage.getTagsForNote, List.find?, hmd]
  · simp [exportOfflineMarkdown, getOfflineNoteWithTags, List.find?, hoff]
  · intro h
    have h2 := congrArg String.data h
    simp [String.data_append] at h2

/-- Claim C9 counterexample: when the random draw floors to zero (the random
source returned a value below one in ten million), the offline-created note
has id zero, which is not strictly negative. -/
theorem spec_c9_counterexample :
    createNoteFlow true (.error .net) (some "T") (some "c") none none 0 5 emptyLocal
      = .ok (offlineCreateNote (some "T") (some "c") none none 0 5,
             saveOfflineNote (offlineCreateNote (some "T") (some "c") none none 0 5) emptyLocal)
    ∧ ¬ ((offlineCreateNote (some "T") (some "c") none none 0 5).id < 0) := by decide

/-- Claim C9 amended: the offline-created note id is the negation of the
floored random draw, hence never positive: it is nonpositive for every draw,
strictly negative exactly when the draw is at least one, and in particular
never equal to any positive server-assigned id. -/
theorem spec_c9_amended_nonpositive_id (title content : Option String)
    (fav del : Option Bool) (k now : Nat) :
    (offlineCreateNote title content fav del k now).id ≤ 0
    ∧ (1 ≤ k → (offlineCreateNote title content fav del k now).id < 0)
    ∧ ∀ m : Int, 1 ≤ m → (offlineCreateNote title content fav del k now).id ≠ m := by
  refine ⟨?_, ?_, ?_⟩ <;> simp only [offlineCreateNote] <;> omega

/-- Claim C9 witness: at draw 3 the placeholder id is strictly negative and
differs from server id 1. -/
theorem spec_c9_witness :
    (offlineCreateNote none none none none 3 0).id < 0
    ∧ (offlineCreateNote none none none none 3 0).id ≠ 1 :=
  ⟨(spec_c9_amended_nonpositive_id none none none none 3 0).2.1 (by decide),
   (spec_c9_amended_nonpositive_id none none none none 3 0).2.2 1 (by decide)⟩

/-- Claim C2 (code bug): after an offline create (placeholder id minus five)
and a successful retried create online (server id one), the Local Store
retains the negative-id placeholder row next to the server-assigned row —
the code never removes the placeholder. -/
theorem spec_c2_placeholder_retained :
    createNoteFlow true (.error .net) (some "Trip") (some "x") none none 5 0 emptyLocal
      = .ok (c2Placeholder, c2Store1)
    ∧ createNoteFlow false (.ok c2ServerNote) (some "Trip") (some "x") none none 7 1 c2Store1
      = .ok (c2ServerNote, c2Store2)
    ∧ (c2Store2.notes.any fun n => n.id == -5) = true
    ∧ (c2Store2.notes.any fun n => n.id == 1) = true := by decide

/-- Claim C1 counterexample: with the note present locally, an online update
rejected by the Remote API with an application-class error does not
propagate: the hook answers with a successful result and the Local Store is
mutated. -/
theorem spec_c1_counterexample :
    updateNoteFlow false (.error .app) 1 patchB 5 storeA
      = .ok ({ noteA with title := "B", updatedAt := 5 },
             { storeA with notes := [{ noteA with title := "B", updatedAt := 5 }] })
    ∧ ({ storeA with notes := [{ noteA with title := "B", updatedAt := 5 }] } : LocalStore)
        ≠ storeA := by decide

/-- Claim C3 counterexample: with the target absent from the Local Store, an
update under total network failure and the same update executed offline both
fail, but with different error messages, so the fallback result does not
equal the pure offline result. -/
theorem spec_c3_counterexample :
    updateNoteFlow false (.error .net) 1 patchB 0 emptyLocal
      ≠ updateNoteFlow true (.error .net) 1 patchB 0 emptyLocal := by decide

/-- Claim C4 counterexample: the local search has no deleted-note filter and
no whitespace trimming: the empty query returns a trashed note, and a
one-space query fails to return the live note. -/
theorem spec_c4_counterexample :
    ((searchOfflineNotes "" c4Store).any fun nw => nw.note.isDeleted) = true
    ∧ searchOfflineNotes " " c4Store = [] := by decide

/-- Claim C4 amended: searchOfflineNotes is exactly the case-insensitive
substring filter over title, content and tag names applied to all local
notes with their tags, and the empty query returns every note — deleted
notes included and with no whitespace special-casing. -/
theorem spec_c4_amended_search_semantics (q : String) (s : LocalStore) (nw : NoteWithTags) :
    (nw ∈ searchOfflineNotes q s ↔ nw ∈ getOfflineNotesWithTags s ∧ searchMatch q nw = true)
    ∧ searchOfflineNotes "" s = getOfflineNotesWithTags s := by
  constructor
  · simp [searchOfflineNotes, List.mem_filter]
  · apply List.filter_eq_self.mpr
    intro a _
    have h0 : jsToLower "" = "" := rfl
    simp [searchMatch, strIncludes, h0, listIncludes_nil]

/-- Claim C8 counterexample: from the consistent empty store, adding a
relation for a note and tag that do not exist leaves a dangling relation
row: addOfflineTagToNote performs no existence check. -/
theorem spec_c8_counterexample :
    Consistent emptyLocal ∧ ¬ Consistent (addOfflineTagToNote 1 1 emptyLocal) := by decide

/-- Claim C1 amended: while online, an application-class rejection from the
Remote API is handled identically to a network failure by every write intent
of the claim — create, update, delete, restore, toggle-favorite, tag
add/remove, and likewise tag create/update/delete: the error never
propagates as such; instead the mutation is applied to the Local Store from
the local copy and a success is returned (creates unconditionally, with a
fresh negative-id placeholder; the others whenever the target note — and for
the tag intents the target tag — is present in the Local Store), and a
not-found error of the hook's own is thrown exactly when the target is
absent locally. -/
theorem spec_c1_amended_fallback_on_rejection (e : RemoteErr) (id : Int)
    (p : NotePatch) (tp : TagPatch) (now : Nat) (s : LocalStore) :
    (∀ (title content : Option String) (fav del : Option Bool) (k : Nat),
        createNoteFlow false (.error e) title content fav del k now s
          = .ok (offlineCreateNote title content fav del k now,
                 saveOfflineNote (offlineCreateNote title content fav del k now) s))
    ∧ (∀ (name : String) (color : Option String) (k : Nat),
        createTagFlow false (.error e) name color k s
          = .ok (offlineCreateTag name color k,
                 saveOfflineTag (offlineCreateTag name color k) s))
    ∧ (∀ nw, getOfflineNoteWithTags s id = some nw →
        updateNoteFlow false (.error e) id p now s
          = .ok ({ applyNotePatch nw.note p with updatedAt := now },
                 saveOfflineNote { applyNotePatch nw.note p with updatedAt := now } s)
        ∧ deleteNoteFlow false (.error e) id now s
          = .ok (.note { nw.note with isDeleted := true, updatedAt := now },
                 saveOfflineNote { nw.note with isDeleted := true, updatedAt := now } s, none)
        ∧ restoreNoteFlow false (.error e) id now s
          = .ok ({ nw.note with isDeleted := false, updatedAt := now },
                 saveOfflineNote { nw.note with isDeleted := false, updatedAt := now } s)
        ∧ toggleFavoriteFlow false (.error e) id now s
          = .ok ({ nw.note with isFavorite := !nw.note.isFavorite, updatedAt := now },
                 saveOfflineNote { nw.note with isFavorite := !nw.note.isFavorite, updatedAt := now } s)
        ∧ ∀ tagId tg, s.tags.find? (fun t => t.id == tagId) = some tg →
            addTagToNoteFlow false (.error e) id tagId s
              = .ok (.flag ⟨true⟩, addOfflineTagToNote id tagId s)
            ∧ removeTagFromNoteFlow false (.error e) id tagId s
              = .ok (.flag ⟨true⟩, removeOfflineTagFromNote id tagId s))
    ∧ (∀ tg, s.tags.find? (fun t => t.id == id) = some tg →
        updateTagFlow false (.error e) id tp s
          = .ok (applyTagPatch tg tp, saveOfflineTag (applyTagPatch tg tp) s)
        ∧ deleteTagFlow false (.error e) id s = .ok (⟨true⟩, deleteOfflineTag id s))
    ∧ (getOfflineNoteWithTags s id = none →
        updateNoteFlow false (.error e) id p now s
          = .error "Failed to update note and note not found in offline storage"
        ∧ deleteNoteFlow false (.error e) id now s
          = .error "Failed to delete note and note not found in offline storage"
        ∧ restoreNoteFlow false (.error e) id now s
          = .error "Failed to restore note and note not found in offline storage"
        ∧ toggleFavoriteFlow false (.error e) id now s
          = .error "Failed to toggle favorite and note not found in offline storage"
        ∧ (∀ tagId, addTagToNoteFlow false (.error e) id tagId s
            = .error "Note not found in offline storage")
        ∧ (∀ tagId, removeTagFromNoteFlow false (.error e) id tagId s
            = .error "Note not found in offline storage"))
    ∧ (s.tags.find? (fun t => t.id == id) = none →
        updateTagFlow false (.error e) id tp s
          = .error "Failed to update tag and tag not found in offline storage"
        ∧ deleteTagFlow false (.error e) id s
          = .error "Failed to delete tag and tag not found in offline storage") := by
  refine ⟨?_, ?_, ?_, ?_, ?_, ?_⟩
  · intro title content fav del k
    simp [createNoteFlow]
  · intro name color k
    simp [createTagFlow]
  · intro nw h
    refine ⟨?_, ?_, ?_, ?_, ?_⟩
    · simp [updateNoteFlow, h]
    · simp [deleteNoteFlow, h]
    · simp [restoreNoteFlow, h]
    · simp [toggleFavoriteFlow, h]
    · intro tagId tg ht
      exact ⟨by simp [addTagToNoteFlow, h, ht], by simp [removeTagFromNoteFlow, h, ht]⟩
  · intro tg ht
    exact ⟨by simp [updateTagFlow, ht], by simp [deleteTagFlow, ht]⟩
  · intro h
    refine ⟨?_, ?_, ?_, ?_, ?_, ?_⟩
    · simp [updateNoteFlow, h]
    · simp [deleteNoteFlow, h]
    · simp [restoreNoteFlow, h]
    · simp [toggleFavoriteFlow, h]
    · intro tagId; simp [addTagToNoteFlow, h]
    · intro tagId; simp [removeTagFromNoteFlow, h]
  · intro ht
    exact ⟨by simp [updateTagFlow, ht], by simp [deleteTagFlow, ht]⟩

/-- Claim C1 witness: concrete instances of the amended behavior at c8Store
(note 1 and tag 10 present): the rejected update, delete, tag-add and
tag-update all fall back to the local mutation and succeed. -/
theorem spec_c1_witness :
    updateNoteFlow false (.error .app) 1 patchB 5 c8Store
      = .ok ({ applyNotePatch noteA patchB with updatedAt := 5 },
             saveOfflineNote { applyNotePatch noteA patchB with updatedAt := 5 } c8Store)
    ∧ deleteNoteFlow false (.error .app) 1 5 c8Store
      = .ok (.note { noteA with isDeleted := true, updatedAt := 5 },
             saveOfflineNote { noteA with isDeleted := true, updatedAt := 5 } c8Store, none)
    ∧ addTagToNoteFlow false (.error .app) 1 10 c8Store
      = .ok (.flag ⟨true⟩, addOfflineTagToNote 1 10 c8Store)
    ∧ updateTagFlow false (.error .app) 10 tagPatchN c8Store
      = .ok (applyTagPatch tagW tagPatchN, saveOfflineTag (applyTagPatch tagW tagPatchN) c8Store) :=
  ⟨((spec_c1_amended_fallback_on_rejection .app 1 patchB tagPatchN 5 c8Store).2.2.1
      ⟨noteA, []⟩ (by decide)).1,
   ((spec_c1_amended_fallback_on_rejection .app 1 patchB tagPatchN 5 c8Store).2.2.1
      ⟨noteA, []⟩ (by decide)).2.1,
   (((spec_c1_amended_fallback_on_rejection .app 1 patchB tagPatchN 5 c8Store).2.2.1
      ⟨noteA, []⟩ (by decide)).2.2.2.2 10 tagW (by decide)).1,
   ((spec_c1_amended_fallback_on_rejection .app 10 patchB tagPatchN 5 c8Store).2.2.2.1
      tagW (by decide)).1⟩

/-- Claim C3 amended: under total network failure every intent — the reads
(note list, single note, tag list), search, the creates (note and tag), the
tag relation add/remove, and the remaining writes — still returns a defined
result.  Reads, search, creates and the relation add/remove return exactly
the pure offline-mode result given the same store, timestamp and random
draw; note update/delete/restore/toggle-favorite and tag update/delete
return the pure offline-mode result whenever the target is present in the
Local Store, and when it is absent both executions fail (no unhandled
success is fabricated) but with different error messages, so their results
are not equal in that case. -/
theorem spec_c3_amended_fallback_transparency (uid : Option String)
    (includeDeleted : Bool) (q : String) (title content : Option String)
    (fav del : Option Bool) (k now : Nat) (id tagId : Int) (p : NotePatch)
    (tp : TagPatch) (name : String) (color : Option String)
    (s : LocalStore) (cloud : Except RemoteErr (Option (List NoteWithTags)))
    (remote : Except RemoteErr (List NoteWithTags))
    (rn : Except RemoteErr Note) (rb : Except RemoteErr (Option NoteWithTags))
    (rt : Except RemoteErr (List Tag)) (rtag : Except RemoteErr Tag)
    (rsb : Except RemoteErr SuccessBody) (rl : Except RemoteErr (List Tag)) :
    notesQueryFlow false uid (.error .net) (.error .net) includeDeleted s
      = notesQueryFlow true uid cloud remote includeDeleted s
    ∧ noteByIdFlow false (.error .net) id s = noteByIdFlow true rb id s
    ∧ tagsQueryFlow false (.error .net) s = tagsQueryFlow true rt s
    ∧ searchNotesFlow false (.error .net) q s = searchNotesFlow true remote q s
    ∧ createNoteFlow false (.error .net) title content fav del k now s
        = createNoteFlow true rn title content fav del k now s
    ∧ createTagFlow false (.error .net) name color k s
        = createTagFlow true rtag name color k s
    ∧ addTagToNoteFlow false (.error .net) id tagId s
        = addTagToNoteFlow true rl id tagId s
    ∧ removeTagFromNoteFlow false (.error .net) id tagId s
        = removeTagFromNoteFlow true rl id tagId s
    ∧ (∀ nw, getOfflineNoteWithTags s id = some nw →
        updateNoteFlow false (.error .net) id p now s = updateNoteFlow true rn id p now s
        ∧ deleteNoteFlow false (.error .net) id now s = deleteNoteFlow true rsb id now s
        ∧ restoreNoteFlow false (.error .net) id now s = restoreNoteFlow true rn id now s
        ∧ toggleFavoriteFlow false (.error .net) id now s
            = toggleFavoriteFlow true rn id now s)
    ∧ (∀ tg, s.tags.find? (fun t => t.id == id) = some tg →
        updateTagFlow false (.error .net) id tp s = updateTagFlow true rtag id tp s
        ∧ deleteTagFlow false (.error .net) id s = deleteTagFlow true rsb id s)
    ∧ (getOfflineNoteWithTags s id = none →
        (updateNoteFlow false (.error .net) id p now s).isOk = false
        ∧ (updateNoteFlow true rn id p now s).isOk = false
        ∧ updateNoteFlow false (.error .net) id p now s
            ≠ updateNoteFlow true rn id p now s
        ∧ (deleteNoteFlow false (.error .net) id now s).isOk = false
        ∧ (deleteNoteFlow true rsb id now s).isOk = false
        ∧ deleteNoteFlow false (.error .net) id now s
            ≠ deleteNoteFlow true rsb id now s)
    ∧ (s.tags.find? (fun t => t.id == id) = none →
        (updateTagFlow false (.error .net) id tp s).isOk = false
        ∧ (updateTagFlow true rtag id tp s).isOk = false
        ∧ updateTagFlow false (.error .net) id tp s ≠ updateTagFlow true rtag id tp s
        ∧ (deleteTagFlow false (.error .net) id s).isOk = false
        ∧ (deleteTagFlow true rsb id s).isOk = false
        ∧ deleteTagFlow false (.error .net) id s ≠ deleteTagFlow true rsb id s) := by
  refine ⟨?_, ?_, ?_, ?_, ?_, ?_, ?_, ?_, ?_, ?_, ?_, ?_⟩
  · cases uid <;> simp [notesQueryFlow]
  · simp [noteByIdFlow]
  · simp [tagsQueryFlow]
  · simp [searchNotesFlow]
  · simp [createNoteFlow]
  · simp [createTagFlow]
  · simp [addTagToNoteFlow]
  · simp [removeTagFromNoteFlow]
  · intro nw h
    refine ⟨?_, ?_, ?_, ?_⟩ <;>
      simp [updateNoteFlow, deleteNoteFlow, restoreNoteFlow, toggleFavoriteFlow, h]
  · intro tg ht
    exact ⟨by simp [updateTagFlow, ht], by simp [deleteTagFlow, ht]⟩
  · intro h
    refine ⟨?_, ?_, ?_, ?_, ?_, ?_⟩ <;>
      simp [updateNoteFlow, deleteNoteFlow, h, Except.isOk, Except.toBool]
  · intro ht
    refine ⟨?_, ?_, ?_, ?_, ?_, ?_⟩ <;>
      simp [updateTagFlow, deleteTagFlow, ht, Except.isOk, Except.toBool]

/-- Claim C3 witness: concrete instances — the note-1 update and delete agree
between offline mode and network fallback at storeA, the absent note 2 fails
in both executions, and the tag-10 delete agrees at c8Store. -/
theorem spec_c3_witness :
    updateNoteFlow false (.error .net) 1 patchB 5 storeA
      = updateNoteFlow true (.error .net) 1 patchB 5 storeA
    ∧ deleteNoteFlow false (.error .net) 1 5 storeA
        = deleteNoteFlow true (.error .net) 1 5 storeA
    ∧ (updateNoteFlow false (.error .net) 2 patchB 5 storeA).isOk = false
    ∧ deleteTagFlow false (.error .net) 10 c8Store
        = deleteTagFlow true (.error .net) 10 c8Store :=
  ⟨((spec_c3_amended_fallback_transparency none false "" none none none none 0 5 1 0
      patchB tagPatchN "" none storeA (.error .net) (.error .net) (.error .net)
      (.error .net) (.error .net) (.error .net) (.error .net)
      (.error .net)).2.2.2.2.2.2.2.2.1 ⟨noteA, []⟩ (by decide)).1,
   ((spec_c3_amended_fallback_transparency none false "" none none none none 0 5 1 0
      patchB tagPatchN "" none storeA (.error .net) (.error .net) (.error .net)
      (.error .net) (.error .net) (.error .net) (.error .net)
      (.error .net)).2.2.2.2.2.2.2.2.1 ⟨noteA, []⟩ (by decide)).2.1,
   ((spec_c3_amended_fallback_transparency none false "" none none none none 0 5 2 0
      patchB tagPatchN "" none storeA (.error .net) (.error .net) (.error .net)
      (.error .net) (.error .net) (.error .net) (.error .net)
      (.error .net)).2.2.2.2.2.2.2.2.2.2.1 (by decide)).1,
   ((spec_c3_amended_fallback_transparency none false "" none none none none 0 5 10 0
      patchB tagPatchN "" none c8Store (.error .net) (.error .net) (.error .net)
      (.error .net) (.error .net) (.error .net) (.error .net)
      (.error .net)).2.2.2.2.2.2.2.2.2.1 tagW (by decide)).2⟩

/-- Claim C7 (confirmed): for every note present in the server repository,
soft-deleting and then restoring it yields a note equal to the pre-delete
note in id, title, content, favorite flag and creation time, with the
deleted flag cleared, and with an updatedAt newer than the pre-delete one
whenever the restore timestamp is newer (the wall clock does not run
backwards). -/
theorem spec_c7_delete_restore_roundtrip (s : MemStorage) (id : Int) (t1 t2 : Nat)
    (pre : Note) (hpre : s.getNote id = some pre) (hclock : pre.updatedAt < t2) :
    ∃ post : Note,
      (MemStorage.restoreNote id t2 (MemStorage.deleteNote id t1 s).2).1 = some post
      ∧ post.id = pre.id ∧ post.title = pre.title ∧ post.content = pre.content
      ∧ post.isFavorite = pre.isFavorite ∧ post.createdAt = pre.createdAt
      ∧ post.isDeleted = false ∧ pre.updatedAt < post.updatedAt := by
  have h1 : (MemStorage.deleteNote id t1 s).2
      = { s with notes := upsertBy Note.id { pre with isDeleted := true, updatedAt := t1 } s.notes } := by
    simp [MemStorage.deleteNote, hpre]
  have h2 : MemStorage.getNote
      { s with notes := upsertBy Note.id { pre with isDeleted := true, updatedAt := t1 } s.notes } id
      = some { pre with isDeleted := true, updatedAt := t1 } := by
    simp only [MemStorage.getNote]
    exact find?_upsertBy_self s.notes id pre _ (by simpa [MemStorage.getNote] using hpre) rfl
  refine ⟨{ pre with isDeleted := false, updatedAt := t2 }, ?_, rfl, rfl, rfl, rfl, rfl, rfl, hclock⟩
  rw [h1]
  simp [MemStorage.restoreNote, h2]

/-- Claim C7 witness: the concrete round trip on c7Store at times 1 and 2. -/
theorem spec_c7_witness :
    ∃ post : Note,
      (MemStorage.restoreNote 1 2 (MemStorage.deleteNote 1 1 c7Store).2).1 = some post
      ∧ post.id = c7Pre.id ∧ post.title = c7Pre.title ∧ post.content = c7Pre.content
      ∧ post.isFavorite = c7Pre.isFavorite ∧ post.createdAt = c7Pre.createdAt
      ∧ post.isDeleted = false ∧ c7Pre.updatedAt < post.updatedAt :=
  spec_c7_delete_restore_roundtrip c7Store 1 1 2 c7Pre (by decide) (by decide)

/-- Claim C8 amended: from a consistent Local Store, saveNote, deleteNote,
saveTag, deleteTag and removeNoteTagRelation always preserve referential
consistency of the relation rows; addNoteTagRelation preserves it provided
the referenced note id and tag id are present in the store (which its
callers check before invoking it), but not in general. -/
theorem spec_c8_amended_consistency (s : LocalStore) (h : Consistent s)
    (n : Note) (t : Tag) (noteId tagId a b : Int) :
    Consistent (saveOfflineNote n s)
    ∧ Consistent (deleteOfflineNote noteId s)
    ∧ Consistent (saveOfflineTag t s)
    ∧ Consistent (deleteOfflineTag tagId s)
    ∧ Consistent (removeOfflineTagFromNote a b s)
    ∧ ((∃ nn ∈ s.notes, nn.id = a) → (∃ tt ∈ s.tags, tt.id = b) →
        Consistent (addOfflineTagToNote a b s)) := by
  refine ⟨?_, ?_, ?_, ?_, ?_, ?_⟩
  · intro nt hnt
    have hnt' : nt ∈ s.noteTags := hnt
    obtain ⟨hn, ht⟩ := h nt hnt'
    exact ⟨exists_key_upsertBy Note.id n nt.noteId s.notes hn, ht⟩
  · intro nt hnt
    simp only [deleteOfflineNote, List.mem_filter] at hnt
    obtain ⟨hmem, hneq⟩ := hnt
    have hneq' : ¬ (nt.noteId = noteId) := by simpa using hneq
    obtain ⟨⟨n', hn', hid⟩, ht⟩ := h nt hmem
    refine ⟨⟨n', List.mem_filter.mpr ⟨hn', by simp; omega⟩, hid⟩, ht⟩
  · intro nt hnt
    have hnt' : nt ∈ s.noteTags := hnt
    obtain ⟨hn, ht⟩ := h nt hnt'
    exact ⟨hn, exists_key_upsertBy Tag.id t nt.tagId s.tags ht⟩
  · intro nt hnt
    simp only [deleteOfflineTag, List.mem_filter] at hnt
    obtain ⟨hmem, hneq⟩ := hnt
    have hneq' : ¬ (nt.tagId = tagId) := by simpa using hneq
    obtain ⟨hn, ⟨t', ht', hid⟩⟩ := h nt hmem
    refine ⟨hn, ⟨t', List.mem_filter.mpr ⟨ht', by simp; omega⟩, hid⟩⟩
  · intro nt hnt
    simp only [removeOfflineTagFromNote, List.mem_filter] at hnt
    exact h nt hnt.1
  · intro hna htb
    simp only [Consistent, addOfflineTagToNote]
    split
    · exact h
    · intro nt hnt
      simp only [List.mem_append] at hnt
      rcases hnt with hold | hnew
      · exact h nt hold
      · have he : nt = ⟨a, b⟩ := by simpa using hnew
        subst he
        exact ⟨hna, htb⟩

/-- Claim C8 witness: adding an existing note-tag pair to the consistent
c8Store keeps the store consistent. -/
theorem spec_c8_witness : Consistent (addOfflineTagToNote 1 10 c8Store) :=
  (spec_c8_amended_consistency c8Store (by decide) noteA tagW 0 0 1 10).2.2.2.2.2
    (by decide) (by decide)

/-- Claim C10 (confirmed): the server note id counter starts at one; every
note created through the repository, after any request history, receives an
id of at least one; a later create after any further history receives a
strictly larger id (so ids are pairwise distinct across the lifetime of the
instance); and no server-assigned id can equal the id of an offline-created
placeholder note. -/
theorem spec_c10_server_ids_positive_distinct (ops1 ops2 : List ServerOp)
    (a b : InsertNote) (t1 t2 : Nat) :
    initStorage.noteCurrentId = 1
    ∧ 1 ≤ ((MemStorage.createNote a t1 (runOps ops1 initStorage)).1).id
    ∧ ((MemStorage.createNote a t1 (runOps ops1 initStorage)).1).id
        < ((MemStorage.createNote b t2 (runOps ops2
            (MemStorage.createNote a t1 (runOps ops1 initStorage)).2)).1).id
    ∧ ∀ (title content : Option String) (fav del : Option Bool) (k now : Nat),
        ((MemStorage.createNote a t1 (runOps ops1 initStorage)).1).id
          ≠ (offlineCreateNote title content fav del k now).id := by
  have hinit : initStorage.noteCurrentId = 1 := by decide
  have m1 : initStorage.noteCurrentId ≤ (runOps ops1 initStorage).noteCurrentId :=
    noteCurrentId_runOps ops1 initStorage
  have hid1 : ((MemStorage.createNote a t1 (runOps ops1 initStorage)).1).id
      = (runOps ops1 initStorage).noteCurrentId := rfl
  have hs1 : ((MemStorage.createNote a t1 (runOps ops1 initStorage)).2).noteCurrentId
      = (runOps ops1 initStorage).noteCurrentId + 1 := rfl
  have m2 : ((MemStorage.createNote a t1 (runOps ops1 initStorage)).2).noteCurrentId
      ≤ (runOps ops2 (MemStorage.createNote a t1 (runOps ops1 initStorage)).2).noteCurrentId :=
    noteCurrentId_runOps ops2 _
  have hid2 : ((MemStorage.createNote b t2 (runOps ops2
      (MemStorage.createNote a t1 (runOps ops1 initStorage)).2)).1).id
      = (runOps ops2 (MemStorage.createNote a t1 (runOps ops1 initStorage)).2).noteCurrentId := rfl
  refine ⟨hinit, ?_, ?_, ?_⟩
  · rw [hid1]; omega
  · rw [hid1, hid2]; omega
  · intro title content fav del k now
    have hoff : (offlineCreateNote title content fav del k now).id = -(k : Int) := rfl
    rw [hid1, hoff]; omega

end NotePro
